import Mathlib

/-!
Verification of the bootstrap-icon-renderer pipeline (src/main.rs).

The embedding models, from the source:
* the fixed geometry constants and the `ScreenSize::new` / `Pixmap::new`
  checks of `svg2png1` (usvg's `ScreenSize::new` returns `None` exactly when a
  dimension is zero; tiny_skia's `Pixmap::new` additionally bounds dimensions
  by `i32::MAX`); the `u32` subtraction `size - (margin * 2)` is modelled with
  release-mode wrapping semantics (an overflow-checked build would panic
  instead — in neither build is an `Err` returned);
* the background colour generator: palette's `Hsl -> Rgb` conversion in the
  same (gamma-encoded sRGB) standard, over exact rationals, followed by
  tiny_skia's `Color::from_rgba` range check;
* the compositing step: `Pixmap::fill` and `draw_pixmap` at offset (0, 0)
  with `PixmapPaint::default()` (source-over, opacity 1, identity transform),
  as per-pixel premultiplied source-over;
* the batch driver `svg2png`: the `?` operator on output-path derivation
  propagates, while `svg2png1` failures are caught and printed. `attempted`
  and `diagnostics` record, as ghost observations, which entries reached
  `svg2png1` and which diagnostics were printed.
-/

namespace IconRenderer

/-! ## Geometry (src/main.rs, svg2png1, lines 88-100) -/

/-- The fixed margin constant, `let margin = 32;` (line 91). -/
def margin : Nat := 32

/-- The fixed canvas side constant, `let size = 256;` (line 92). -/
def size : Nat := 256

/-- Wrapping subtraction of `u32` values represented as `Nat` (release-mode
Rust semantics of `a - b`; a debug build panics on overflow instead). -/
def u32WrapSub (a b : Nat) : Nat :=
  (a % 2 ^ 32 + 2 ^ 32 - b % 2 ^ 32) % 2 ^ 32

/-- usvg `ScreenSize::new(width, height)`: `Some` iff both are non-zero. -/
def ScreenSize.new (w h : Nat) : Option (Nat × Nat) :=
  if 0 < w ∧ 0 < h then some (w, h) else none

/-- tiny_skia `Pixmap::new(width, height)`: `Some` iff both dimensions are in
`1 ..= i32::MAX`. -/
def Pixmap.new (w h : Nat) : Option (Nat × Nat) :=
  if (0 < w ∧ w ≤ 2147483647) ∧ (0 < h ∧ h ≤ 2147483647) then some (w, h) else none

/-- The render-size computation of svg2png1 for an arbitrary margin value:
`ScreenSize::new(size - (margin * 2), size - (margin * 2))` (lines 94-95),
with the `u32` subtraction modelled as wrapping. -/
def renderSizeFor (m : Nat) : Option (Nat × Nat) :=
  ScreenSize.new (u32WrapSub size (m * 2)) (u32WrapSub size (m * 2))

/-- The geometry svg2png1 sets up, gathered: the dimensions of the vector
render target `pixmap`, the canvas `bgpixmap`, the `FitTo::Size` arguments,
the render transform translation, and the `draw_pixmap` offset. -/
structure RenderPlan where
  vecBufW : Nat
  vecBufH : Nat
  canvasW : Nat
  canvasH : Nat
  fitW : Nat
  fitH : Nat
  translateX : Nat
  translateY : Nat
  drawOffsetX : Nat
  drawOffsetY : Nat
deriving DecidableEq

/-- The geometry of svg2png1 (lines 93-131): `pixmap_size`, `render_size`,
the two `Pixmap::new` calls sized by `pixmap_size` (the source unwraps them),
`resvg::render` with `FitTo::Size(render_size.width(), render_size.height())`
and `Transform::from_translate(margin, margin)` into `pixmap`, and
`bgpixmap.draw_pixmap(0, 0, pixmap, ...)`. -/
def svg2png1Plan : Option RenderPlan :=
  match ScreenSize.new size size with
  | none => none
  | some ps =>
    match renderSizeFor margin with
    | none => none
    | some rs =>
      match Pixmap.new ps.1 ps.2, Pixmap.new ps.1 ps.2 with
      | some pm, some bgpm =>
        some { vecBufW := pm.1, vecBufH := pm.2,
               canvasW := bgpm.1, canvasH := bgpm.2,
               fitW := rs.1, fitH := rs.2,
               translateX := margin, translateY := margin,
               drawOffsetX := 0, drawOffsetY := 0 }
      | _, _ => none

/-! ## Colour generator (src/main.rs, lines 102-109)

`Hsl::new(h, 0.75, 0.75)` then `let color: Srgb = hsl.into_color();` —
palette converts `Hsl<Srgb>` into `Rgb<Srgb>` (both in the gamma-encoded
sRGB standard) by the direct HSL-to-RGB formula; no transfer-function step
is involved. Channel arithmetic is modelled over exact rationals. -/

/-- palette `RgbHue::to_positive_degrees`: normalise a hue into `[0, 360)`. -/
def toPositiveDegrees (h : ℚ) : ℚ := h - 360 * ⌊h / 360⌋

/-- Truncation toward zero, the rounding of Rust's float `%`. -/
def ratTrunc (q : ℚ) : ℤ := if 0 ≤ q then ⌊q⌋ else -⌊-q⌋

/-- Rust float remainder `a % b`: `a - b * trunc(a / b)`. -/
def rustRem (a b : ℚ) : ℚ := a - b * ratTrunc (a / b)

/-- palette: `let c = (1.0 - (lightness * 2.0 - 1.0).abs()) * saturation;`. -/
def hslChroma (s l : ℚ) : ℚ := (1 - |l * 2 - 1|) * s

/-- palette: `let h = hue.to_positive_degrees() / 60.0;`. -/
def hslSector (h : ℚ) : ℚ := toPositiveDegrees h / 60

/-- palette: `let x = c * (1.0 - (h % 2.0 - 1.0).abs());`. -/
def hslX (h s l : ℚ) : ℚ := hslChroma s l * (1 - |rustRem (hslSector h) 2 - 1|)

/-- palette: `let m = lightness - c * 0.5;`. -/
def hslM (s l : ℚ) : ℚ := l - hslChroma s l * (1 / 2)

/-- palette's `Hsl<Srgb> -> Rgb<Srgb>` conversion: the sector branch choosing
`(red, green, blue)` from `{c, x, 0}`, with `m` added to every channel
(`Rgb::new(red + m, green + m, blue + m)` distributed into the branches). -/
def hsl2rgb (h s l : ℚ) : ℚ × ℚ × ℚ :=
  let c := hslChroma s l
  let h6 := hslSector h
  let x := hslX h s l
  let m := hslM s l
  if 0 ≤ h6 ∧ h6 < 1 then (c + m, x + m, 0 + m)
  else if 1 ≤ h6 ∧ h6 < 2 then (x + m, c + m, 0 + m)
  else if 2 ≤ h6 ∧ h6 < 3 then (0 + m, c + m, x + m)
  else if 3 ≤ h6 ∧ h6 < 4 then (0 + m, x + m, c + m)
  else if 4 ≤ h6 ∧ h6 < 5 then (x + m, 0 + m, c + m)
  else (c + m, 0 + m, x + m)

/-- tiny_skia's non-premultiplied RGBA colour, channels in `[0, 1]`. -/
structure Color where
  r : ℚ
  g : ℚ
  b : ℚ
  a : ℚ
deriving DecidableEq

/-- tiny_skia `Color::from_rgba`: `Some` iff every channel is in `[0, 1]`. -/
def Color.from_rgba (r g b a : ℚ) : Option Color :=
  if 0 ≤ r ∧ r ≤ 1 ∧ 0 ≤ g ∧ g ≤ 1 ∧ 0 ≤ b ∧ b ≤ 1 ∧ 0 ≤ a ∧ a ≤ 1 then
    some ⟨r, g, b, a⟩
  else none

/-- Lines 103-109: sample hue `h`, build `Hsl::new(h, 0.75, 0.75)`, convert to
`Srgb`, then `Color::from_rgba(color.red, color.green, color.blue, 1.)`. -/
def genBgColor (h : ℚ) : Option Color :=
  let rgb := hsl2rgb h (3 / 4) (3 / 4)
  Color.from_rgba rgb.1 rgb.2.1 rgb.2.2 1

/-- Modelled from the spec: the sRGB transfer ("gamma") expansion that turns a
gamma-encoded channel value `c` into its linear-light value, which the spec's
phrase "linear-channel red/green/blue representation" denotes. Above the
linear toe (`c > 0.04045`) the expansion is `((c + 0.055) / 1.055) ^ 2.4`;
since `2.4 = 12 / 5`, the linear value `y` is characterised algebraically as
the unique non-negative real with `y ^ 5 = ((c + 0.055) / 1.055) ^ 12`. -/
def IsLinearChannel (c y : ℝ) : Prop :=
  0 ≤ y ∧ y ^ 5 = ((c + 0.055) / 1.055) ^ 12

/-! ## Compositor (src/main.rs, lines 110-131)

`bgpixmap.fill(c)` then `bgpixmap.draw_pixmap(0, 0, pixmap.as_ref(),
&PixmapPaint::default(), Transform::identity(), None)`: with default paint
(blend mode source-over, opacity 1) and identity transform this blends, pixel
by pixel, the vector pixmap over the background with the premultiplied
source-over rule `out = src + dst * (1 - src.alpha)`. -/

/-- A premultiplied RGBA pixel value, as tiny_skia stores pixels. -/
structure PremulColor where
  r : ℚ
  g : ℚ
  b : ℚ
  a : ℚ
deriving DecidableEq

/-- The fully transparent pixel, `Pixmap::new`'s initial fill. -/
def transparentPixel : PremulColor := ⟨0, 0, 0, 0⟩

/-- Premultiplied source-over: `out = src + dst * (1 - src.alpha)`. -/
def sourceOver (s d : PremulColor) : PremulColor :=
  ⟨s.r + d.r * (1 - s.a), s.g + d.g * (1 - s.a), s.b + d.b * (1 - s.a),
   s.a + d.a * (1 - s.a)⟩

/-- Premultiply a straight-alpha colour, as `Pixmap::fill` stores it. -/
def Color.premultiply (c : Color) : PremulColor :=
  ⟨c.r * c.a, c.g * c.a, c.b * c.a, c.a⟩

/-- `bgpixmap.fill(c)`: every pixel becomes `c`. -/
def fillPixmap (c : PremulColor) : Nat → Nat → PremulColor := fun _ _ => c

/-- `dst.draw_pixmap(0, 0, src, &PixmapPaint::default(), identity, None)`:
per-pixel source-over of `src` onto `dst`. -/
def drawPixmap (dst src : Nat → Nat → PremulColor) : Nat → Nat → PremulColor :=
  fun x y => sourceOver (src x y) (dst x y)

/-- The canvas produced by lines 110-131: a solid background fill composited
with the vector layer. -/
def compositeOutput (bg : PremulColor) (vec : Nat → Nat → PremulColor) :
    Nat → Nat → PremulColor :=
  drawPixmap (fillPixmap bg) vec

/-- The render region: the square of side `size - 2 * margin = 192` at offset
`(margin, margin)` inside the canvas. -/
def inRenderRegion (x y : Nat) : Prop :=
  margin ≤ x ∧ x < margin + 192 ∧ margin ≤ y ∧ y < margin + 192

instance (x y : Nat) : Decidable (inRenderRegion x y) := by
  unfold inRenderRegion; infer_instance

/-- Modelled from the spec: the Vector Rasterizer confines scene content to
the render region (spec §4.3, fit to the render size at offset
`(margin, margin)`); `pixmap` starts fully transparent (`Pixmap::new`) and
resvg clips the fitted scene to its viewport, so pixels outside the render
region stay transparent. -/
def ConfinedToRenderRegion (vec : Nat → Nat → PremulColor) : Prop :=
  ∀ x y, ¬ inRenderRegion x y → vec x y = transparentPixel

/-- The observable pieces of one svg2png1 run: the rasterized vector layer,
the premultiplied background fill, and the final canvas. -/
structure RunResult where
  vecLayer : Nat → Nat → PremulColor
  bg : PremulColor
  final : Nat → Nat → PremulColor

/-- One svg2png1 run on an already-parsed scene, abstracting the rasterizer
as a function of the scene only (the hue sample `h` reaches nothing but the
background colour, as in lines 102-119). -/
def runItem {σ : Type} (rasterize : σ → Nat → Nat → PremulColor) (scene : σ)
    (h : ℚ) : Option RunResult :=
  (genBgColor h).map fun c =>
    ⟨rasterize scene, c.premultiply, compositeOutput c.premultiply (rasterize scene)⟩

/-! ## Batch driver (src/main.rs, svg2png, lines 44-74) -/

/-- One enumerated directory entry, with the outcomes of the two external
steps svg2png performs on it: `stem` is the result of
`path.file_stem().ok_or(...)` combined with `into_string().map_err(...)`
(error payloads "no file stem" / "bad os string"), and `itemOutcome` the
result of `svg2png1` on this entry. -/
structure Entry where
  path : String
  stem : Except String String
  itemOutcome : Except String Unit

/-- The diagnostic the driver prints for one entry:
`eprintln!("error handling {}: {}", path.display(), e)` on `Err`, nothing on
`Ok` (lines 66-71). -/
def entryDiag (e : Entry) : List String :=
  match e.itemOutcome with
  | Except.ok _ => []
  | Except.error msg => ["error handling " ++ e.path ++ ": " ++ msg]

/-- Ghost observations of one batch run: which entry paths reached `svg2png1`
and which diagnostics were printed, in order. -/
structure BatchResult where
  attempted : List String
  diagnostics : List String
deriving DecidableEq

/-- The `for path in inputs.iter()` loop (lines 57-72): output-path
derivation uses `?`, so its failure returns from svg2png at once; an
`Err` from svg2png1 is only printed, and the loop continues. -/
def runBatch : List Entry → Except String BatchResult
  | [] => Except.ok ⟨[], []⟩
  | e :: rest =>
    match e.stem with
    | Except.error msg => Except.error msg
    | Except.ok _ =>
      match runBatch rest with
      | Except.error msg => Except.error msg
      | Except.ok r => Except.ok ⟨e.path :: r.attempted, entryDiag e ++ r.diagnostics⟩

/-- svg2png (lines 44-74): `fs::read_dir(input)?` aborts on enumeration
failure (`Err` entries inside a successful enumeration are silently dropped
by the `filter_map`, so an `Entry` here is an `Ok` entry); then the loop. -/
def svg2png (enumerated : Except String (List Entry)) : Except String BatchResult :=
  match enumerated with
  | Except.error msg => Except.error msg
  | Except.ok entries => runBatch entries

/-! ## Helper lemmas -/

/-- For a hue already in `[0, 360)`, palette's normalisation is the
identity. -/
theorem toPositiveDegrees_eq_self (h : ℚ) (h0 : 0 ≤ h) (h360 : h < 360) :
    toPositiveDegrees h = h := by
  unfold toPositiveDegrees
  have hz : ⌊h / 360⌋ = 0 := by
    rw [Int.floor_eq_zero_iff]
    constructor
    · positivity
    · rw [div_lt_one (by norm_num)]; simpa using h360
  rw [hz]; ring

/-- Rust's float remainder by 2 of a non-negative value lies in `[0, 2)`. -/
theorem rustRem_two_bounds (q : ℚ) (hq : 0 ≤ q) :
    0 ≤ rustRem q 2 ∧ rustRem q 2 < 2 := by
  unfold rustRem ratTrunc
  have hq2 : 0 ≤ q / 2 := by positivity
  rw [if_pos hq2]
  have h1 : (⌊q / 2⌋ : ℚ) ≤ q / 2 := Int.floor_le _
  have h2 : q / 2 < ⌊q / 2⌋ + 1 := Int.lt_floor_add_one _
  constructor <;> linarith

/-- For saturation and lightness 0.75 every channel of the HSL-to-RGB
conversion lies in `[9/16, 15/16]`: chroma is `3/8`, the match offset `m` is
`9/16`, and each channel is `m` plus one of `{0, x, c}` with `x ∈ [0, 3/8]`. -/
theorem hsl2rgb_pastel_bounds (h : ℚ) (h0 : 0 ≤ h) (h360 : h < 360) :
    9/16 ≤ (hsl2rgb h (3/4) (3/4)).1 ∧ (hsl2rgb h (3/4) (3/4)).1 ≤ 15/16 ∧
    9/16 ≤ (hsl2rgb h (3/4) (3/4)).2.1 ∧ (hsl2rgb h (3/4) (3/4)).2.1 ≤ 15/16 ∧
    9/16 ≤ (hsl2rgb h (3/4) (3/4)).2.2 ∧ (hsl2rgb h (3/4) (3/4)).2.2 ≤ 15/16 := by
  have hc : hslChroma (3/4) (3/4) = 3/8 := by
    unfold hslChroma
    rw [abs_of_nonneg (by norm_num : (0:ℚ) ≤ 3/4 * 2 - 1)]
    norm_num
  have hm : hslM (3/4) (3/4) = 9/16 := by unfold hslM; rw [hc]; norm_num
  have hsec : 0 ≤ hslSector h := by
    unfold hslSector
    rw [toPositiveDegrees_eq_self h h0 h360]
    positivity
  have hx : 0 ≤ hslX h (3/4) (3/4) ∧ hslX h (3/4) (3/4) ≤ 3/8 := by
    obtain ⟨hr0, hr2⟩ := rustRem_two_bounds (hslSector h) hsec
    unfold hslX
    rw [hc]
    have habs : |rustRem (hslSector h) 2 - 1| ≤ 1 := by
      rw [abs_le]; constructor <;> linarith
    have habs0 : 0 ≤ |rustRem (hslSector h) 2 - 1| := abs_nonneg _
    constructor <;> nlinarith
  obtain ⟨hx0, hx1⟩ := hx
  simp only [hsl2rgb, hc, hm]
  split_ifs <;> dsimp only <;>
    exact ⟨by linarith, by linarith, by linarith, by linarith, by linarith, by linarith⟩

/-- For any hue in `[0, 360)` the colour generator succeeds and stores
exactly the HSL-to-RGB conversion's channels with alpha 1. -/
theorem genBgColor_eq (h : ℚ) (h0 : 0 ≤ h) (h360 : h < 360) :
    genBgColor h = some ⟨(hsl2rgb h (3/4) (3/4)).1, (hsl2rgb h (3/4) (3/4)).2.1,
      (hsl2rgb h (3/4) (3/4)).2.2, 1⟩ := by
  obtain ⟨b1, b2, b3, b4, b5, b6⟩ := hsl2rgb_pastel_bounds h h0 h360
  simp only [genBgColor, Color.from_rgba]
  rw [if_pos]
  exact ⟨by linarith, by linarith, by linarith, by linarith, by linarith, by linarith,
    by norm_num, by norm_num⟩

/-- When every entry's output name derives, the batch loop finishes without
an error, attempts every entry in order, and prints exactly the failing
entries' diagnostics. -/
theorem runBatch_ok (entries : List Entry)
    (h : ∀ e ∈ entries, e.stem.isOk = true) :
    runBatch entries =
      Except.ok ⟨entries.map Entry.path, (entries.map entryDiag).flatten⟩ := by
  induction entries with
  | nil => rfl
  | cons e rest ih =>
    have he : e.stem.isOk = true := h e (List.mem_cons_self _ _)
    have hrest : ∀ x ∈ rest, x.stem.isOk = true := fun x hx => h x (List.mem_cons_of_mem _ hx)
    obtain ⟨s, hs⟩ : ∃ s, e.stem = Except.ok s := by
      cases hst : e.stem with
      | error msg => rw [hst] at he; exact absurd he (by simp [Except.isOk, Except.toBool])
      | ok s => exact ⟨s, rfl⟩
    simp only [runBatch, hs, ih hrest, List.map_cons, List.flatten_cons]

/-! ## The claims -/

/-- Claim C1, counterexample: with a successful directory enumeration whose
first entry has no derivable output name, the batch returns an error — the
failure is neither reported as a diagnostic nor skipped, and the following
entry is never processed, contradicting "the batch operation as a whole
returns an error only when the initial directory enumeration itself
fails". -/
theorem batch_aborts_on_opath_failure :
    svg2png (Except.ok
      [⟨"/icons/weird", Except.error "no file stem", Except.ok ()⟩,
       ⟨"/icons/a.svg", Except.ok "a", Except.error "parse error"⟩]) =
      Except.error "no file stem" := rfl

/-- Claim C1, amended: when every entry's output name derives, a failure of
`svg2png1` for an entry is caught, reported as a diagnostic naming that
entry's path, and processing continues through all entries with the batch
returning success; but an entry whose output path cannot be derived aborts
the whole batch (see the counterexample). -/
theorem batch_isolates_item_failures (entries : List Entry)
    (h : ∀ e ∈ entries, e.stem.isOk = true) :
    ∃ r, runBatch entries = Except.ok r ∧
      r.attempted = entries.map Entry.path ∧
      r.diagnostics = (entries.map entryDiag).flatten :=
  ⟨_, runBatch_ok entries h, rfl, rfl⟩

/-- Witness for C1's amended theorem: a two-entry batch whose second entry
fails; both entries are attempted and exactly one diagnostic, naming the
failing path, is printed. -/
theorem batch_isolates_item_failures_witness :
    ∃ r, runBatch
      [⟨"/icons/ok.svg", Except.ok "ok", Except.ok ()⟩,
       ⟨"/icons/bad.svg", Except.ok "bad", Except.error "parse error"⟩] = Except.ok r ∧
      r.attempted = ["/icons/ok.svg", "/icons/bad.svg"] ∧
      r.diagnostics = ["error handling /icons/bad.svg: parse error"] := by
  obtain ⟨r, h1, h2, h3⟩ := batch_isolates_item_failures
    [⟨"/icons/ok.svg", Except.ok "ok", Except.ok ()⟩,
     ⟨"/icons/bad.svg", Except.ok "bad", Except.error "parse error"⟩] (by decide)
  exact ⟨r, h1, h2.trans (by decide), h3.trans (by decide)⟩

/-- Claim C2, counterexample: the vector rasterizer's target buffer
(`pixmap`) is 256 x 256 — canvas-sized, not the claimed render size
192 x 192 — and `draw_pixmap` composites it at offset (0, 0), not at
(32, 32). -/
theorem vec_buffer_not_render_sized :
    svg2png1Plan = some ⟨256, 256, 256, 256, 192, 192, 32, 32, 0, 0⟩ ∧
    (256 : Nat) ≠ 192 ∧ (0 : Nat) ≠ 32 :=
  ⟨by decide, by decide, by decide⟩

/-- Claim C2, amended: the vector layer's pixel buffer has the canvas
dimensions (256 x 256); the scene content is fit to the render size
(192 x 192) and translated by (margin, margin) = (32, 32) by the render
transform inside that buffer, and the compositor draws the whole buffer onto
the canvas at offset (0, 0). -/
theorem vec_buffer_canvas_sized :
    ∃ p, svg2png1Plan = some p ∧
      p.vecBufW = p.canvasW ∧ p.vecBufH = p.canvasH ∧ p.vecBufW = 256 ∧ p.vecBufH = 256 ∧
      p.fitW = 192 ∧ p.fitH = 192 ∧ p.translateX = 32 ∧ p.translateY = 32 ∧
      p.drawOffsetX = 0 ∧ p.drawOffsetY = 0 :=
  ⟨⟨256, 256, 256, 256, 192, 192, 32, 32, 0, 0⟩, by decide, rfl, rfl, rfl, rfl, rfl, rfl, rfl, rfl, rfl, rfl⟩

/-- Claim C3, counterexample: at hue 0 the stored red channel is `15/16` —
the gamma-encoded HSL-to-RGB output — while the linear-channel value of that
colour's red channel differs from `15/16`: no conversion to a linear-channel
representation happens before pixel storage. -/
theorem bg_color_not_linearized :
    genBgColor 0 = some ⟨15/16, 9/16, 9/16, 1⟩ ∧
    ∀ y : ℝ, IsLinearChannel (15/16) y → y ≠ 15/16 := by
  constructor
  · norm_num [genBgColor, hsl2rgb, hslChroma, hslSector, hslX, hslM, toPositiveDegrees,
      rustRem, ratTrunc, Color.from_rgba, abs_of_nonneg (show (0:ℚ) ≤ 1/2 by norm_num)]
  · rintro y ⟨-, h5⟩ rfl
    norm_num at h5

/-- Claim C3, amended: for every hue in `[0, 360)` the background colour is
converted to a gamma-encoded (nonlinear) sRGB representation — the direct
HSL-to-RGB formula outputs are stored unchanged as the pixel channels, with
no linearization step. -/
theorem bg_color_stores_encoded_channels (h : ℚ) (h0 : 0 ≤ h) (h360 : h < 360) :
    genBgColor h = some ⟨(hsl2rgb h (3/4) (3/4)).1, (hsl2rgb h (3/4) (3/4)).2.1,
      (hsl2rgb h (3/4) (3/4)).2.2, 1⟩ :=
  genBgColor_eq h h0 h360

/-- Witness for C3's amended theorem at hue 240. -/
theorem bg_color_stores_encoded_channels_witness :
    genBgColor 240 = some ⟨(hsl2rgb 240 (3/4) (3/4)).1, (hsl2rgb 240 (3/4) (3/4)).2.1,
      (hsl2rgb 240 (3/4) (3/4)).2.2, 1⟩ :=
  bg_color_stores_encoded_channels 240 (by norm_num) (by norm_num)

/-- Claim C4, confirmed: the canvas buffer is exactly 256 x 256 and the
render region exactly 192 x 192 at net offset (32, 32) within the canvas;
`svg2png1Plan` is a closed constant built only from `size` and `margin`, so
none of this depends on input content. -/
theorem fixed_geometry_constants :
    ∃ p, svg2png1Plan = some p ∧
      p.canvasW = size ∧ p.canvasH = size ∧ p.canvasW = 256 ∧ p.canvasH = 256 ∧
      p.fitW = 192 ∧ p.fitH = 192 ∧ p.translateX = margin ∧ p.translateY = margin ∧
      p.translateX + p.drawOffsetX = 32 ∧ p.translateY + p.drawOffsetY = 32 :=
  ⟨⟨256, 256, 256, 256, 192, 192, 32, 32, 0, 0⟩, by decide, rfl, rfl, rfl, rfl, rfl, rfl, rfl, rfl, rfl, rfl⟩

/-- Claim C5, confirmed: for every hue in `[0, 360)` the generated
background colour is built from saturation 0.75 and lightness 0.75, has
alpha exactly 1, and every converted red/green/blue channel lies in
`[0, 1]` (indeed in `[9/16, 15/16]`), so `Color::from_rgba` accepts it. -/
theorem bg_color_valid_and_bounded (h : ℚ) (h0 : 0 ≤ h) (h360 : h < 360) :
    ∃ c : Color, genBgColor h = some c ∧ c.a = 1 ∧
      (c.r, c.g, c.b) = hsl2rgb h (3/4) (3/4) ∧
      0 ≤ c.r ∧ c.r ≤ 1 ∧ 0 ≤ c.g ∧ c.g ≤ 1 ∧ 0 ≤ c.b ∧ c.b ≤ 1 := by
  obtain ⟨b1, b2, b3, b4, b5, b6⟩ := hsl2rgb_pastel_bounds h h0 h360
  exact ⟨_, genBgColor_eq h h0 h360, rfl, rfl, by linarith, by linarith, by linarith,
    by linarith, by linarith, by linarith⟩

/-- Witness for C5 at hue 300. -/
theorem bg_color_valid_and_bounded_witness :
    ∃ c : Color, genBgColor 300 = some c ∧ c.a = 1 ∧
      (c.r, c.g, c.b) = hsl2rgb 300 (3/4) (3/4) ∧
      0 ≤ c.r ∧ c.r ≤ 1 ∧ 0 ≤ c.g ∧ c.g ≤ 1 ∧ 0 ≤ c.b ∧ c.b ≤ 1 :=
  bg_color_valid_and_bounded 300 (by norm_num) (by norm_num)

/-- Claim C6, confirmed: source-over semantics of the compositing step: at
any position inside the render region, a fully opaque vector pixel replaces
the background entirely, and a fully transparent vector pixel leaves the
background colour unchanged. -/
theorem composite_source_over_semantics (bg : PremulColor)
    (vec : Nat → Nat → PremulColor) (x y : Nat) (_hin : inRenderRegion x y) :
    ((vec x y).a = 1 → compositeOutput bg vec x y = vec x y) ∧
    (vec x y = transparentPixel → compositeOutput bg vec x y = bg) := by
  constructor
  · intro ha
    simp only [compositeOutput, drawPixmap, fillPixmap, sourceOver, ha]
    rw [← ha]
    norm_num
  · intro ht
    simp [compositeOutput, drawPixmap, fillPixmap, sourceOver, ht, transparentPixel]

/-- Witness for C6 at position (40, 50) with an opaque red vector pixel
over a mid-grey background. -/
theorem composite_source_over_semantics_witness :
    (((fun (_ _ : Nat) => (⟨1, 0, 0, 1⟩ : PremulColor)) 40 50).a = 1 →
      compositeOutput ⟨1/2, 1/2, 1/2, 1⟩ (fun _ _ => ⟨1, 0, 0, 1⟩) 40 50 =
        (fun (_ _ : Nat) => (⟨1, 0, 0, 1⟩ : PremulColor)) 40 50) ∧
    ((fun (_ _ : Nat) => (⟨1, 0, 0, 1⟩ : PremulColor)) 40 50 = transparentPixel →
      compositeOutput ⟨1/2, 1/2, 1/2, 1⟩ (fun _ _ => ⟨1, 0, 0, 1⟩) 40 50 = ⟨1/2, 1/2, 1/2, 1⟩) :=
  composite_source_over_semantics ⟨1/2, 1/2, 1/2, 1⟩ (fun _ _ => ⟨1, 0, 0, 1⟩) 40 50 (by decide)

/-- Claim C7, confirmed: for a vector layer confined to the render region
(which the rasterizer guarantees, see `ConfinedToRenderRegion`), every canvas
pixel strictly outside the render region equals the background colour
exactly. -/
theorem outside_render_region_is_background (bg : PremulColor)
    (vec : Nat → Nat → PremulColor) (x y : Nat)
    (hconf : ConfinedToRenderRegion vec) (hout : ¬ inRenderRegion x y) :
    compositeOutput bg vec x y = bg := by
  have ht := hconf x y hout
  simp [compositeOutput, drawPixmap, fillPixmap, sourceOver, ht, transparentPixel]

/-- Witness for C7 at the canvas corner (0, 0). -/
theorem outside_render_region_is_background_witness :
    compositeOutput ⟨1/4, 1/2, 3/4, 1⟩ (fun _ _ => transparentPixel) 0 0 = ⟨1/4, 1/2, 3/4, 1⟩ :=
  outside_render_region_is_background ⟨1/4, 1/2, 3/4, 1⟩ (fun _ _ => transparentPixel) 0 0
    (fun _ _ _ => rfl) (by decide)

/-- One `svg2png1` run evaluated: with the background colour generated, the
run rasterizes the scene independently of the hue and composites it over the
premultiplied background fill. -/
theorem runItem_eq {σ : Type} (rasterize : σ → Nat → Nat → PremulColor) (scene : σ)
    (h : ℚ) (c : Color) (hc : genBgColor h = some c) :
    runItem rasterize scene h =
      some ⟨rasterize scene, c.premultiply, compositeOutput c.premultiply (rasterize scene)⟩ := by
  simp only [runItem, hc, Option.map_some']

/-- Claim C8, confirmed: two runs on the same scene that differ only in the
hue drawn rasterize identical vector layers, and their final outputs can
differ at a pixel only through the background colour. -/
theorem hue_noninterference_with_vector_layer (σ : Type)
    (rasterize : σ → Nat → Nat → PremulColor) (scene : σ) (h1 h2 : ℚ)
    (h10 : 0 ≤ h1) (h1lt : h1 < 360) (h20 : 0 ≤ h2) (h2lt : h2 < 360) :
    ∃ r1 r2, runItem rasterize scene h1 = some r1 ∧ runItem rasterize scene h2 = some r2 ∧
      r1.vecLayer = r2.vecLayer ∧
      (∀ x y, r1.final x y ≠ r2.final x y → r1.bg ≠ r2.bg) := by
  refine ⟨_, _, runItem_eq rasterize scene h1 _ (genBgColor_eq h1 h10 h1lt),
    runItem_eq rasterize scene h2 _ (genBgColor_eq h2 h20 h2lt), rfl, ?_⟩
  intro x y hne hbg
  exact hne (congrFun (congrFun
    (congrArg (fun b => compositeOutput b (rasterize scene)) hbg) x) y)

/-- Witness for C8: hues 0 and 120 over the same constant scene. -/
theorem hue_noninterference_with_vector_layer_witness :
    ∃ r1 r2, runItem (fun _ : Unit => fun _ _ => (⟨1, 0, 0, 1⟩ : PremulColor)) () 0 = some r1 ∧
      runItem (fun _ : Unit => fun _ _ => (⟨1, 0, 0, 1⟩ : PremulColor)) () 120 = some r2 ∧
      r1.vecLayer = r2.vecLayer ∧
      (∀ x y, r1.final x y ≠ r2.final x y → r1.bg ≠ r2.bg) :=
  hue_noninterference_with_vector_layer Unit (fun _ => fun _ _ => ⟨1, 0, 0, 1⟩) () 0 120
    (by norm_num) (by norm_num) (by norm_num) (by norm_num)

/-- Claim C9, counterexample: margin 129 (which is >= 128) is not rejected:
the wrapping `u32` subtraction yields the huge dimension `2 ^ 32 - 2` and
`ScreenSize::new` accepts it (in an overflow-checked build the subtraction
panics instead — neither build returns the claimed error). -/
theorem geometry_margin_129_accepted :
    renderSizeFor 129 = some (4294967294, 4294967294) := by decide

/-- Claim C9, amended: with the fixed constants the render size is 192 x 192
and positive; margin 128 (render side exactly 0) is rejected with an error;
but every margin strictly between 128 and `2 ^ 31` wraps to a non-zero
dimension and is accepted rather than rejected. -/
theorem geometry_margin_rejection :
    renderSizeFor 32 = some (192, 192) ∧ renderSizeFor 128 = none ∧
    ∀ m, 128 < m → m < 2 ^ 31 → renderSizeFor m ≠ none := by
  refine ⟨by decide, by decide, ?_⟩
  intro m hm hlt
  unfold renderSizeFor ScreenSize.new u32WrapSub size
  rw [if_pos]
  · exact Option.some_ne_none _
  have : m * 2 % 2 ^ 32 = m * 2 := by omega
  constructor <;> omega

/-- Witness instantiating C9's amended universal part at margin 200. -/
theorem geometry_margin_rejection_witness : renderSizeFor 200 ≠ none :=
  geometry_margin_rejection.2.2 200 (by norm_num) (by norm_num)

/-- Claim C10, counterexample: a successfully enumerated entry
(`/icons/readme.txt`) is never attempted, because a preceding entry without a
derivable output name aborts the whole batch — so "for every
successfully-enumerated directory entry the driver invokes the full per-item
pipeline" does not hold unconditionally. -/
theorem nonsvg_entry_lost_to_abort :
    svg2png (Except.ok
      [⟨"/icons/noname", Except.error "bad os string", Except.ok ()⟩,
       ⟨"/icons/readme.txt", Except.ok "readme", Except.ok ()⟩]) =
      Except.error "bad os string" := rfl

/-- Claim C10, amended: provided every entry's output name derives, every
enumerated entry is attempted by the per-item pipeline regardless of its
file-name extension — the batch loop contains no `.svg` suffix test (the
compiled `RE_SVG` regex is never applied anywhere in `svg2png`), so non-SVG
entries fail only later, inside `svg2png1`, with a reported diagnostic. -/
theorem no_svg_extension_filtering (entries : List Entry)
    (h : ∀ e ∈ entries, e.stem.isOk = true) :
    ∃ r, runBatch entries = Except.ok r ∧ ∀ e ∈ entries, e.path ∈ r.attempted := by
  refine ⟨_, runBatch_ok entries h, ?_⟩
  intro e he
  exact List.mem_map_of_mem Entry.path he

/-- Witness for C10's amended theorem: a `.txt` entry is attempted (and its
later failure reported) exactly like a `.svg` entry. -/
theorem no_svg_extension_filtering_witness :
    ∃ r, runBatch
      [⟨"/icons/logo.svg", Except.ok "logo", Except.ok ()⟩,
       ⟨"/icons/notes.txt", Except.ok "notes", Except.error "parse error"⟩] = Except.ok r ∧
      ∀ e ∈ [(⟨"/icons/logo.svg", Except.ok "logo", Except.ok ()⟩ : Entry),
             ⟨"/icons/notes.txt", Except.ok "notes", Except.error "parse error"⟩],
        e.path ∈ r.attempted :=
  no_svg_extension_filtering
    [⟨"/icons/logo.svg", Except.ok "logo", Except.ok ()⟩,
     ⟨"/icons/notes.txt", Except.ok "notes", Except.error "parse error"⟩] (by decide)

end IconRenderer
